import Mathlib

/-!
Verification development for the WebSocket relay server in `hello_api.py`.

The server accepts WebSocket connections, authenticates them with a shared
API key, reads a handshake message naming a `clientType`, registers the
connection in a process-wide `ConnectionManager`, and then runs a message
loop dispatching on the `action` field of each parsed JSON message.

The embedding below models:
  - JSON values produced by `json.loads` (`JVal`),
  - the Python runtime errors the handler can raise (`PyErr`),
  - `dict.get` and `d[k]` subscription on those values,
  - the in-memory `ConnectionManager` (a Python dict from client-type
    strings to WebSocket objects, here represented by numeric ids),
  - the observable effects of the endpoint (accepting, closing, sending a
    frame, issuing a persistence write),
  - the per-message dispatch (`dispatch`), one iteration of the message
    loop including its exception behavior (`loopStep`), and the
    authentication/handshake prelude (`websocket_handshake`).

The external database sink is an oracle `sink : String → JVal → Bool`
reporting whether `store_data_in_rds(record, table)` succeeds; each call is
also recorded as an `Effect.store` so that the number and order of
persistence writes is observable.
-/

/-- JSON-like values as returned by `json.loads` (Python `None` included,
since `dict.get` yields it for absent keys). -/
inductive JVal where
  | null : JVal
  | boolean : Bool → JVal
  | num : Int → JVal
  | str : String → JVal
  | obj : List (String × JVal) → JVal

/-- Python runtime exceptions the handler code can raise. -/
inductive PyErr where
  | keyError : String → PyErr
  | typeError : PyErr
  | attributeError : PyErr
  | jsonDecodeError : PyErr
deriving DecidableEq

/-- Python `v.get(k)`: on a dict, the value or `None` when absent; on any
non-dict value, `AttributeError` (no `.get` attribute). -/
def pyGet (v : JVal) (k : String) : Except PyErr JVal :=
  match v with
  | .obj kvs => .ok ((kvs.lookup k).getD .null)
  | _ => .error .attributeError

/-- Python `v[k]` with a string key: on a dict, the value or `KeyError`
when absent; on any other value, `TypeError` (not subscriptable by `str`). -/
def pyIndex (v : JVal) (k : String) : Except PyErr JVal :=
  match v with
  | .obj kvs =>
      match kvs.lookup k with
      | some x => .ok x
      | none => .error (.keyError k)
  | _ => .error .typeError

/-- `v == "s"` for a Python value against a string literal. -/
def jvalIsStr (v : JVal) (s : String) : Bool :=
  match v with
  | .str t => t == s
  | _ => false

/-- Truthiness of a Python string (used by the `or "local_admin1d"`
condition on line 156 of the source). -/
def pyTruthy (s : String) : Bool := s != ""

/-- Observable effects of the endpoint: `websocket.accept()`,
`websocket.close(code)`, `ws.send_text(json.dumps(msg))`, and a call to
`store_data_in_rds(record, table)`. -/
inductive Effect where
  | accept : Nat → Effect
  | close : Nat → Nat → Effect
  | send : Nat → JVal → Effect
  | store : String → JVal → Effect

/-- Whether an effect is a `send_text` to some connection. -/
def Effect.isSend : Effect → Bool
  | .send _ _ => true
  | _ => false

/-- Python dict assignment `d[k] = v` on an association list: replace the
binding in place when the key exists, append otherwise. -/
def dictInsert (l : List (String × Nat)) (k : String) (v : Nat) :
    List (String × Nat) :=
  match l with
  | [] => [(k, v)]
  | (k', v') :: t => if k' == k then (k, v) :: t else (k', v') :: dictInsert t k v

/-- Python `if k in d: del d[k]` on an association list. -/
def dictRemove (l : List (String × Nat)) (k : String) : List (String × Nat) :=
  match l with
  | [] => []
  | (k', v') :: t => if k' == k then t else (k', v') :: dictRemove t k

/-- The in-memory connection registry: `active_connections` maps client
types to WebSocket connections (represented by numeric ids). -/
structure ConnectionManager where
  active_connections : List (String × Nat)

/-- `self.active_connections.get(client_type)`. -/
def ConnectionManager.lookup (m : ConnectionManager) (client_type : String) :
    Option Nat :=
  m.active_connections.lookup client_type

/-- `client_type in self.active_connections`. -/
def ConnectionManager.containsRole (m : ConnectionManager) (client_type : String) :
    Bool :=
  (m.lookup client_type).isSome

/-- `manager.connect(client_type, websocket)`: stores the connection,
overwriting any previous holder of the role; it performs no sends and
closes nothing, hence the empty effect list. -/
def ConnectionManager.connect (m : ConnectionManager) (client_type : String)
    (websocket : Nat) : ConnectionManager × List Effect :=
  (⟨dictInsert m.active_connections client_type websocket⟩, [])

/-- `manager.disconnect(client_type)`: removes the mapping if present. -/
def ConnectionManager.disconnect (m : ConnectionManager) (client_type : String) :
    ConnectionManager :=
  ⟨dictRemove m.active_connections client_type⟩

/-- `manager.send_message(client_type, message)`: sends over the registered
connection when one exists, otherwise does nothing. -/
def ConnectionManager.send_message (m : ConnectionManager) (client_type : String)
    (message : JVal) : List Effect :=
  match m.lookup client_type with
  | some ws => [.send ws message]
  | none => []

/-- A status reply dict with `status` and `message` fields. -/
def statusMsg (status message : String) : JVal :=
  .obj [("status", .str status), ("message", .str message)]

/-- One steady-state dispatch of a parsed message, as in the body of the
`while True` loop (lines 131-181 of the source): returns the effects
performed, in order, and the exception (if any) that escaped mid-way.
`client_type` is the role fixed at handshake; `sink table record` reports
whether the corresponding `store_data_in_rds` call returns `True`. -/
def dispatch (manager : ConnectionManager) (sink : String → JVal → Bool)
    (client_type : String) (message : JVal) : List Effect × Option PyErr :=
  match pyGet message "action" with
  | .error e => ([], some e)
  | .ok action =>
  match pyGet message "data" with
  | .error e => ([], some e)
  | .ok data =>
  if jvalIsStr action "streaming" && client_type == "local_datalogger" then
    match pyIndex data "bms" with
    | .error e => ([], some e)
    | .ok bms =>
      match pyIndex data "ems" with
      | .error e => ([Effect.store "bms_data" bms], some e)
      | .ok ems =>
        let success := sink "ems_data" ems
        let response := if success then statusMsg "OK" "Data stored in RDS"
                        else statusMsg "ERROR" "Failed to store data"
        (Effect.store "bms_data" bms :: Effect.store "ems_data" ems ::
          manager.send_message "local_datalogger" response, none)
  else if jvalIsStr action "command" then
    if client_type == "online_admin" then
      if manager.containsRole "local_admin" then
        let response := statusMsg "OK" "Command forwarded to local app"
        (manager.send_message "local_admin" data ++
          manager.send_message "online_admin" response ++
          manager.send_message "online_admin" response, none)
      else
        (manager.send_message "online_admin"
          (statusMsg "ERROR" "No local app connected"), none)
    else if client_type == "local_admin" || pyTruthy "local_admin1d" then
      if manager.containsRole "online_admin" then
        (manager.send_message "online_admin" data ++
          manager.send_message client_type
            (statusMsg "OK" "Command forwarded to online app"), none)
      else
        (manager.send_message client_type
          (statusMsg "ERROR" "No online app connected"), none)
    else ([], none)
  else if jvalIsStr action "check_access" && client_type == "online_admin" then
    if manager.containsRole "local_admin" then
      (manager.send_message "online_admin"
        (statusMsg "enabled" "Local app listening"), none)
    else
      (manager.send_message "online_admin"
        (statusMsg "disabled" "Remote control not allowed"), none)
  else if jvalIsStr action "request" && client_type == "online_admin" then
    if manager.containsRole "local_admin1d" then
      (manager.send_message "local_admin1d"
        (.obj [("request", .str "Online app request permission")]), none)
    else ([], none)
  else if jvalIsStr action "check_health" then
    (manager.send_message client_type
      (statusMsg "OK" ("waiting actions from " ++ client_type)), none)
  else ([], none)

/-- What one `receive_text` of the steady-state loop delivers: a transport
disconnect (raising `WebSocketDisconnect`), text that `json.loads` cannot
parse, or a parsed JSON value. -/
inductive Incoming where
  | disconnect : Incoming
  | malformed : Incoming
  | msg : JVal → Incoming

/-- How one loop iteration ends: proceed to the next `receive_text`
(session still ready), the `except WebSocketDisconnect` handler ran
(connection unregistered, loop over), or an exception other than
`WebSocketDisconnect` escaped the `try` (loop aborts, nothing ran). -/
inductive LoopResult where
  | next : LoopResult
  | disconnected : LoopResult
  | crashed : PyErr → LoopResult

/-- One iteration of the message loop (lines 128-185): the resulting
registry state, the effects performed, and how the iteration ended.
Only `WebSocketDisconnect` is caught; `json.loads` failures and any
exception raised inside `dispatch` propagate, terminating the loop with
the registry untouched. -/
def loopStep (manager : ConnectionManager) (sink : String → JVal → Bool)
    (client_type : String) (inc : Incoming) :
    ConnectionManager × List Effect × LoopResult :=
  match inc with
  | .disconnect => (manager.disconnect client_type, [], .disconnected)
  | .malformed => (manager, [], .crashed .jsonDecodeError)
  | .msg v =>
    match dispatch manager sink client_type v with
    | (effs, some e) => (manager, effs, .crashed e)
    | (effs, none) => (manager, effs, .next)

/-- The hard-coded API key the endpoint compares against. -/
def expected_key : String := "service-must**on**1216!"

/-- Python `a or b` over the optional query parameter and header values,
with empty-string falsiness. -/
def pyOrStr (a b : Option String) : Option String :=
  match a with
  | some s => if s != "" then some s else b
  | none => b

/-- `not api_key or api_key != expected_key` (line 103). -/
def authRejects (api_key : Option String) : Bool :=
  match api_key with
  | none => true
  | some s => s == "" || s != expected_key

/-- The tuple of accepted `clientType` values (line 116). -/
def knownClientTypes : List String :=
  ["local_admin1d", "local_admin", "online_admin", "local_datalogger"]

/-- The authentication and handshake prelude of `websocket_endpoint`
(lines 100-126): given the query/header credentials and the outcome of the
first `receive_text`-plus-`json.loads` (`none` when receiving or parsing
raised), returns the registry after the prelude, the effects performed in
order, and `some client_type` exactly when the session reached the steady
state. -/
def websocket_handshake (manager : ConnectionManager) (conn : Nat)
    (query_api_key header_api_key : Option String) (first : Option JVal) :
    ConnectionManager × List Effect × Option String :=
  if authRejects (pyOrStr query_api_key header_api_key) then
    (manager, [Effect.close conn 1008], none)
  else
    match first with
    | none => (manager, [Effect.accept conn, Effect.close conn 1003], none)
    | some init_data =>
      match pyGet init_data "clientType" with
      | .error _ => (manager, [Effect.accept conn, Effect.close conn 1003], none)
      | .ok ct =>
        match ct with
        | .str s =>
          if knownClientTypes.contains s then
            let m' := (manager.connect s conn).1
            (m', Effect.accept conn ::
              m'.send_message s (statusMsg "CONNECTED" (s ++ " client connected")),
              some s)
          else (manager, [Effect.accept conn, Effect.close conn 1003], none)
        | _ => (manager, [Effect.accept conn, Effect.close conn 1003], none)

/-- The registry maps each role to at most one connection. -/
def atMostOnePerRole (m : ConnectionManager) : Prop :=
  ∀ r : String, m.active_connections.countP (fun p => p.1 == r) ≤ 1

/-- Whether a streaming payload is a dict containing both `bms` and `ems`. -/
def hasBmsAndEms (data : JVal) : Bool :=
  match data with
  | .obj kvs => (kvs.lookup "bms").isSome && (kvs.lookup "ems").isSome
  | _ => false

/-- The persistence oracle under which every write to `bms_data` fails and
every write to `ems_data` succeeds. -/
def emsOnlySink : String → JVal → Bool := fun table _ => table == "ems_data"

/-! ## Helper lemmas about the association-list dictionary -/

theorem lookup_dictInsert_self (l : List (String × Nat)) (k : String) (v : Nat) :
    (dictInsert l k v).lookup k = some v := by
  induction l with
  | nil => simp [dictInsert, List.lookup_cons]
  | cons hd t ih =>
    obtain ⟨k', v'⟩ := hd
    by_cases h : k' = k
    · subst h
      simp [dictInsert, List.lookup_cons]
    · simp only [dictInsert, beq_iff_eq, h, if_false]
      rw [List.lookup_cons]
      have : (k == k') = false := beq_eq_false_iff_ne.mpr (Ne.symm h)
      simp [this, ih]

theorem lookup_dictInsert_ne (l : List (String × Nat)) (k : String) (v : Nat)
    (r : String) (h : r ≠ k) : (dictInsert l k v).lookup r = l.lookup r := by
  induction l with
  | nil =>
    simp [dictInsert, List.lookup_cons, beq_eq_false_iff_ne.mpr h]
  | cons hd t ih =>
    obtain ⟨k', v'⟩ := hd
    by_cases hk : k' = k
    · subst hk
      simp [dictInsert, List.lookup_cons, beq_eq_false_iff_ne.mpr h]
    · simp only [dictInsert, beq_iff_eq, hk, if_false]
      rw [List.lookup_cons, List.lookup_cons]
      cases hrk : r == k'
      · simp [ih]
      · simp

theorem countP_dictInsert_ne (l : List (String × Nat)) (k : String) (v : Nat)
    (r : String) (h : r ≠ k) :
    (dictInsert l k v).countP (fun p => p.1 == r) =
      l.countP (fun p => p.1 == r) := by
  induction l with
  | nil =>
    simp [dictInsert, List.countP_cons, beq_eq_false_iff_ne.mpr (Ne.symm h)]
  | cons hd t ih =>
    obtain ⟨k', v'⟩ := hd
    by_cases hk : k' = k
    · subst hk
      simp [dictInsert, List.countP_cons, beq_eq_false_iff_ne.mpr (Ne.symm h)]
    · simp [dictInsert, hk, List.countP_cons, ih]

theorem countP_dictInsert_self (l : List (String × Nat)) (k : String) (v : Nat) :
    (dictInsert l k v).countP (fun p => p.1 == k) =
      max (l.countP (fun p => p.1 == k)) 1 := by
  induction l with
  | nil => simp [dictInsert, List.countP_cons]
  | cons hd t ih =>
    obtain ⟨k', v'⟩ := hd
    by_cases hk : k' = k
    · subst hk
      simp [dictInsert, List.countP_cons]
    · simp [dictInsert, hk, List.countP_cons, ih, beq_eq_false_iff_ne.mpr hk]

theorem dictRemove_sublist (l : List (String × Nat)) (k : String) :
    (dictRemove l k).Sublist l := by
  induction l with
  | nil => simp [dictRemove]
  | cons hd t ih =>
    obtain ⟨k', v'⟩ := hd
    by_cases hk : k' = k
    · simp only [dictRemove, beq_iff_eq, hk, if_true]
      exact List.sublist_cons_self _ _
    · simp only [dictRemove, beq_iff_eq, hk, if_false]
      exact ih.cons₂ _

theorem lookup_eq_none_of_countP_zero (l : List (String × Nat)) (k : String)
    (h : l.countP (fun p => p.1 == k) = 0) : l.lookup k = none := by
  induction l with
  | nil => simp
  | cons hd t ih =>
    obtain ⟨k', v'⟩ := hd
    rw [List.countP_cons] at h
    rw [List.lookup_cons]
    by_cases hk : k' = k
    · simp [hk] at h
    · have : (k == k') = false := beq_eq_false_iff_ne.mpr (Ne.symm hk)
      simp only [this]
      exact ih (by omega)

theorem lookup_dictRemove_self (l : List (String × Nat)) (k : String)
    (h : l.countP (fun p => p.1 == k) ≤ 1) : (dictRemove l k).lookup k = none := by
  induction l with
  | nil => simp [dictRemove]
  | cons hd t ih =>
    obtain ⟨k', v'⟩ := hd
    rw [List.countP_cons] at h
    by_cases hk : k' = k
    · subst hk
      simp only [dictRemove, beq_self_eq_true, if_true]
      apply lookup_eq_none_of_countP_zero
      simp only [beq_self_eq_true, if_true] at h
      omega
    · simp only [dictRemove, beq_iff_eq, hk, if_false]
      rw [List.lookup_cons]
      have : (k == k') = false := beq_eq_false_iff_ne.mpr (Ne.symm hk)
      simp only [this]
      exact ih (by omega)

/-! ## Claim theorems -/

/-- C1: the claim states that a `command` message from a sender whose role is
neither `online_admin`, `local_admin` nor `local_admin1d` is ignored (no
forwarding, no reply). The code's branch condition
`client_type == "local_admin" or "local_admin1d"` is always truthy, so a
`local_datalogger` sending `command` does reach the forwarding branch: with
no `online_admin` registered it receives the ERROR reply, and with an
`online_admin` registered its payload is forwarded and it receives the OK
reply. -/
theorem command_from_datalogger_not_ignored :
    dispatch ⟨[("local_datalogger", 0)]⟩ (fun _ _ => true) "local_datalogger"
      (.obj [("action", .str "command"), ("data", .obj [])]) =
      ([Effect.send 0 (statusMsg "ERROR" "No online app connected")], none) ∧
    dispatch ⟨[("local_datalogger", 0), ("online_admin", 1)]⟩ (fun _ _ => true)
      "local_datalogger"
      (.obj [("action", .str "command"), ("data", .obj [])]) =
      ([Effect.send 1 (.obj []),
        Effect.send 0 (statusMsg "OK" "Command forwarded to online app")], none) :=
  ⟨rfl, rfl⟩

/-- C2: the claim states the streaming reply is OK exactly when both
persistence writes succeed. The code discards the result of the `bms_data`
write and computes `success` from the `ems_data` write alone: under a sink
that fails every `bms_data` write and passes every `ems_data` write, both
writes are issued yet the reply is OK "Data stored in RDS". -/
theorem streaming_reply_ignores_bms_failure :
    emsOnlySink "bms_data" (.num 1) = false ∧
    dispatch ⟨[("local_datalogger", 0)]⟩ emsOnlySink "local_datalogger"
      (.obj [("action", .str "streaming"),
             ("data", .obj [("bms", .num 1), ("ems", .num 2)])]) =
      ([Effect.store "bms_data" (.num 1), Effect.store "ems_data" (.num 2),
        Effect.send 0 (statusMsg "OK" "Data stored in RDS")], none) :=
  ⟨rfl, rfl⟩

/-- C3: the claim states an unparsable steady-state message is recoverable
(ERROR reply to the sender, session stays ready). In the code only
`WebSocketDisconnect` is caught, so the `json.loads` failure propagates:
for every registry state and role, the iteration performs no effect (in
particular it sends no reply), leaves the registry unchanged, and ends the
loop with an uncaught `JSONDecodeError` instead of continuing. -/
theorem malformed_steady_message_crashes_loop
    (m : ConnectionManager) (sink : String → JVal → Bool) (client_type : String) :
    loopStep m sink client_type .malformed =
      (m, [], .crashed .jsonDecodeError) := rfl

/-- C4: a `command` message from `online_admin` while `local_admin` is not
registered produces exactly one effect: the ERROR reply
`status ERROR, message No local app connected` sent to the sender's own
connection, and nothing is sent to any other role. -/
theorem command_without_local_admin_single_error_reply
    (m : ConnectionManager) (sink : String → JVal → Bool) (c : Nat)
    (message d : JVal)
    (haction : pyGet message "action" = .ok (.str "command"))
    (hdata : pyGet message "data" = .ok d)
    (hno : m.containsRole "local_admin" = false)
    (hself : m.lookup "online_admin" = some c) :
    dispatch m sink "online_admin" message =
      ([Effect.send c (statusMsg "ERROR" "No local app connected")], none) := by
  simp [dispatch, haction, hdata, hno, hself, jvalIsStr,
    ConnectionManager.send_message]

/-- Witness for C4 at a concrete registry holding only `online_admin` on
connection 7 and the message `action command, data cmd stop`. -/
theorem command_without_local_admin_single_error_reply_witness :
    (ConnectionManager.containsRole ⟨[("online_admin", 7)]⟩ "local_admin" = false) ∧
    (ConnectionManager.lookup ⟨[("online_admin", 7)]⟩ "online_admin" = some 7) ∧
    dispatch ⟨[("online_admin", 7)]⟩ (fun _ _ => true) "online_admin"
      (.obj [("action", .str "command"), ("data", .obj [("cmd", .str "stop")])]) =
      ([Effect.send 7 (statusMsg "ERROR" "No local app connected")], none) :=
  ⟨rfl, rfl,
   command_without_local_admin_single_error_reply ⟨[("online_admin", 7)]⟩
     (fun _ _ => true) 7 _ (.obj [("cmd", .str "stop")]) rfl rfl rfl rfl⟩

/-- C9: a `command` from `online_admin` while `local_admin` is registered
forwards the payload verbatim to the `local_admin` connection and then sends
the OK reply to the `online_admin` connection twice: once inside the success
branch and once again after the if/else (line 154 of the source). -/
theorem command_forwarded_ok_reply_sent_twice
    (m : ConnectionManager) (sink : String → JVal → Bool) (a b : Nat)
    (message d : JVal)
    (haction : pyGet message "action" = .ok (.str "command"))
    (hdata : pyGet message "data" = .ok d)
    (hla : m.lookup "local_admin" = some a)
    (hoa : m.lookup "online_admin" = some b) :
    dispatch m sink "online_admin" message =
      ([Effect.send a d,
        Effect.send b (statusMsg "OK" "Command forwarded to local app"),
        Effect.send b (statusMsg "OK" "Command forwarded to local app")], none) := by
  simp [dispatch, haction, hdata, hla, hoa, jvalIsStr,
    ConnectionManager.send_message, ConnectionManager.containsRole]

/-- Witness for C9 with `local_admin` on connection 2 and `online_admin` on
connection 7. -/
theorem command_forwarded_ok_reply_sent_twice_witness :
    (ConnectionManager.lookup ⟨[("local_admin", 2), ("online_admin", 7)]⟩
      "local_admin" = some 2) ∧
    dispatch ⟨[("local_admin", 2), ("online_admin", 7)]⟩ (fun _ _ => true)
      "online_admin"
      (.obj [("action", .str "command"), ("data", .obj [("cmd", .str "stop")])]) =
      ([Effect.send 2 (.obj [("cmd", .str "stop")]),
        Effect.send 7 (statusMsg "OK" "Command forwarded to local app"),
        Effect.send 7 (statusMsg "OK" "Command forwarded to local app")], none) :=
  ⟨rfl,
   command_forwarded_ok_reply_sent_twice ⟨[("local_admin", 2), ("online_admin", 7)]⟩
     (fun _ _ => true) 2 7 _ (.obj [("cmd", .str "stop")]) rfl rfl rfl rfl⟩

/-- C5 counterexample: the claim states unregistration runs whenever the
loop terminates due to disconnect or any error. Here the loop of a
registered `local_datalogger` terminates due to an error (an unparsable
message raising `JSONDecodeError`, which only the absent generic handler
could catch), yet the role is still registered afterwards. -/
theorem error_termination_skips_unregistration :
    (loopStep ⟨[("local_datalogger", 3)]⟩ (fun _ _ => true) "local_datalogger"
      .malformed).2.2 = .crashed .jsonDecodeError ∧
    (loopStep ⟨[("local_datalogger", 3)]⟩ (fun _ _ => true) "local_datalogger"
      .malformed).1.containsRole "local_datalogger" = true :=
  ⟨rfl, rfl⟩

/-- C5 (amended): only a transport disconnect (`WebSocketDisconnect`) runs
`manager.disconnect` as the exit action, after which the terminated
session's role is no longer registered; the iteration performs no other
effect. Loop terminations caused by other uncaught exceptions bypass the
handler and leave the registry untouched. -/
theorem disconnect_runs_unregistration
    (m : ConnectionManager) (sink : String → JVal → Bool) (client_type : String)
    (hinv : atMostOnePerRole m) :
    loopStep m sink client_type .disconnect =
      (m.disconnect client_type, [], .disconnected) ∧
    (m.disconnect client_type).containsRole client_type = false ∧
    (∀ e effs m', loopStep m sink client_type .malformed = (m', effs, .crashed e) →
      m' = m) := by
  refine ⟨rfl, ?_, ?_⟩
  · simp only [ConnectionManager.disconnect, ConnectionManager.containsRole,
      ConnectionManager.lookup]
    rw [lookup_dictRemove_self _ _ (hinv client_type)]
    rfl
  · intro e effs m' h
    simp only [loopStep] at h
    exact (Prod.mk.injEq _ _ _ _ ▸ h).1.symm

/-- Witness for the amended C5 with `local_datalogger` on connection 3. -/
theorem disconnect_runs_unregistration_witness :
    atMostOnePerRole ⟨[("local_datalogger", 3)]⟩ ∧
    loopStep ⟨[("local_datalogger", 3)]⟩ (fun _ _ => true) "local_datalogger"
      .disconnect =
      (ConnectionManager.disconnect ⟨[("local_datalogger", 3)]⟩ "local_datalogger",
        [], .disconnected) ∧
    (ConnectionManager.disconnect ⟨[("local_datalogger", 3)]⟩
      "local_datalogger").containsRole "local_datalogger" = false := by
  have hinv : atMostOnePerRole ⟨[("local_datalogger", 3)]⟩ := by
    intro r
    simp [List.countP_cons]
    split <;> simp
  have h := disconnect_runs_unregistration ⟨[("local_datalogger", 3)]⟩
    (fun _ _ => true) "local_datalogger" hinv
  exact ⟨hinv, h.1, h.2.1⟩

/-- C6: after a successful credential check, a first message that parses
and carries a known `clientType` string registers the connection under
that role and immediately sends the CONNECTED status reply to the newly
registered connection; a first message that fails to parse, or one whose
`clientType` is an unrecognized string or not a string at all, leads to a
close with code 1003 and no registry change. -/
theorem handshake_registers_then_replies_connected
    (m : ConnectionManager) (conn : Nat) (q hd : Option String)
    (init : JVal) (s : String)
    (hauth : authRejects (pyOrStr q hd) = false)
    (hct : pyGet init "clientType" = .ok (.str s))
    (hknown : knownClientTypes.contains s = true) :
    websocket_handshake m conn q hd (some init) =
      ((m.connect s conn).1,
        [Effect.accept conn,
         Effect.send conn (statusMsg "CONNECTED" (s ++ " client connected"))],
        some s) ∧
    websocket_handshake m conn q hd none =
      (m, [Effect.accept conn, Effect.close conn 1003], none) ∧
    (∀ init' : JVal, ∀ b : String,
      pyGet init' "clientType" = .ok (.str b) →
      knownClientTypes.contains b = false →
      websocket_handshake m conn q hd (some init') =
        (m, [Effect.accept conn, Effect.close conn 1003], none)) ∧
    (∀ init' : JVal, ∀ n : Int,
      pyGet init' "clientType" = .ok (.num n) →
      websocket_handshake m conn q hd (some init') =
        (m, [Effect.accept conn, Effect.close conn 1003], none)) := by
  refine ⟨?_, ?_, ?_, ?_⟩
  · simp only [websocket_handshake, hauth, Bool.false_eq_true, if_false, hct,
      hknown, if_true]
    have hnew : (m.connect s conn).1.lookup s = some conn := by
      simp only [ConnectionManager.connect, ConnectionManager.lookup]
      exact lookup_dictInsert_self _ _ _
    simp [ConnectionManager.send_message, hnew]
  · simp [websocket_handshake, hauth]
  · intro init' b hct' hbad
    simp [websocket_handshake, hauth, hct']
    simpa using hbad
  · intro init' n hct'
    simp [websocket_handshake, hauth, hct']

/-- Witness for C6: valid key in the query string, handshake message
`clientType online_admin` on connection 4, starting from an empty registry. -/
theorem handshake_registers_then_replies_connected_witness :
    authRejects (pyOrStr (some "service-must**on**1216!") none) = false ∧
    knownClientTypes.contains "online_admin" = true ∧
    websocket_handshake ⟨[]⟩ 4 (some "service-must**on**1216!") none
      (some (.obj [("clientType", .str "online_admin")])) =
      ((ConnectionManager.connect ⟨[]⟩ "online_admin" 4).1,
        [Effect.accept 4,
         Effect.send 4 (statusMsg "CONNECTED" "online_admin client connected")],
        some "online_admin") ∧
    websocket_handshake ⟨[]⟩ 4 (some "service-must**on**1216!") none
      (some (.obj [("clientType", .str "intruder")])) =
      (⟨[]⟩, [Effect.accept 4, Effect.close 4 1003], none) := by
  have h := handshake_registers_then_replies_connected ⟨[]⟩ 4
    (some "service-must**on**1216!") none
    (.obj [("clientType", .str "online_admin")]) "online_admin" rfl rfl rfl
  exact ⟨rfl, rfl, h.1,
    h.2.2.1 (.obj [("clientType", .str "intruder")]) "intruder" rfl rfl⟩

/-- C7: a connection presenting a missing or mismatched credential is
closed with the policy-violation code 1008 before the handshake is read
(the outcome is the same whatever the first message would have been, and
the socket is never even accepted), and the registry is unchanged. -/
theorem invalid_credential_closed_before_handshake
    (m : ConnectionManager) (conn : Nat) (q hd : Option String)
    (first : Option JVal)
    (hauth : authRejects (pyOrStr q hd) = true) :
    websocket_handshake m conn q hd first =
      (m, [Effect.close conn 1008], none) := by
  simp [websocket_handshake, hauth]

/-- Witness for C7 with a wrong query-string key, a populated registry and
an arbitrary pending first message. -/
theorem invalid_credential_closed_before_handshake_witness :
    authRejects (pyOrStr (some "wrong-key") none) = true ∧
    websocket_handshake ⟨[("local_admin", 2)]⟩ 9 (some "wrong-key") none
      (some (.obj [("clientType", .str "online_admin")])) =
      (⟨[("local_admin", 2)]⟩, [Effect.close 9 1008], none) :=
  ⟨rfl,
   invalid_credential_closed_before_handshake ⟨[("local_admin", 2)]⟩ 9
     (some "wrong-key") none
     (some (.obj [("clientType", .str "online_admin")])) rfl⟩

/-- C8: `connect` and `disconnect` preserve the invariant that the registry
maps each role to at most one connection (`send_message` only reads the map
and returns effects, so it cannot disturb it), and `connect` on an occupied
role silently overwrites: afterwards the role maps to the new connection,
every other role's mapping is untouched, and no effect at all — in
particular neither a send nor a close toward the superseded connection —
is produced. -/
theorem registry_at_most_one_connection_per_role
    (m : ConnectionManager) (r : String) (c : Nat)
    (hinv : atMostOnePerRole m) :
    atMostOnePerRole (m.connect r c).1 ∧
    atMostOnePerRole (m.disconnect r) ∧
    (m.connect r c).1.lookup r = some c ∧
    (∀ r', r' ≠ r → (m.connect r c).1.lookup r' = m.lookup r') ∧
    (m.connect r c).2 = [] := by
  refine ⟨?_, ?_, ?_, ?_, rfl⟩
  · intro x
    show (dictInsert m.active_connections r c).countP (fun p => p.1 == x) ≤ 1
    by_cases hx : x = r
    · subst hx
      rw [countP_dictInsert_self]
      have := hinv x
      omega
    · rw [countP_dictInsert_ne _ _ _ _ hx]
      exact hinv x
  · intro x
    exact le_trans (List.Sublist.countP_le _ (dictRemove_sublist _ _)) (hinv x)
  · exact lookup_dictInsert_self _ _ _
  · intro r' h
    exact lookup_dictInsert_ne _ _ _ _ h

/-- Witness for C8: overwriting the already-occupied `local_admin` slot
(connection 0) with connection 5. -/
theorem registry_at_most_one_connection_per_role_witness :
    atMostOnePerRole ⟨[("local_admin", 0)]⟩ ∧
    atMostOnePerRole (ConnectionManager.connect ⟨[("local_admin", 0)]⟩
      "local_admin" 5).1 ∧
    (ConnectionManager.connect ⟨[("local_admin", 0)]⟩ "local_admin" 5).1.lookup
      "local_admin" = some 5 ∧
    (ConnectionManager.connect ⟨[("local_admin", 0)]⟩ "local_admin" 5).2 = [] := by
  have hinv : atMostOnePerRole ⟨[("local_admin", 0)]⟩ := by
    intro r
    simp [List.countP_cons]
    split <;> simp
  have h := registry_at_most_one_connection_per_role ⟨[("local_admin", 0)]⟩
    "local_admin" 5 hinv
  exact ⟨hinv, h.1, h.2.2.1, h.2.2.2.2⟩

/-- C10: a streaming message from `local_datalogger` whose `data` payload is
not a dict containing both `bms` and `ems` makes the handler raise a
`KeyError` or `TypeError`; the exception is not a `WebSocketDisconnect`, so
the iteration ends with the loop crashed, no reply (no send effect at all)
reaches the sender, and the registry — hence the `local_datalogger`
registration — is left exactly as it was. -/
theorem streaming_bad_payload_crashes_without_reply_or_unregister
    (m : ConnectionManager) (sink : String → JVal → Bool) (message data : JVal)
    (haction : pyGet message "action" = .ok (.str "streaming"))
    (hdata : pyGet message "data" = .ok data)
    (hbad : hasBmsAndEms data = false) :
    ∃ e effs,
      loopStep m sink "local_datalogger" (.msg message) = (m, effs, .crashed e) ∧
      (e = .typeError ∨ ∃ k, e = PyErr.keyError k) ∧
      effs.all (fun eff => !eff.isSend) = true := by
  cases data with
  | obj kvs =>
    rcases hb : kvs.lookup "bms" with _ | bms
    · refine ⟨.keyError "bms", [], ?_, .inr ⟨"bms", rfl⟩, rfl⟩
      simp [loopStep, dispatch, haction, hdata, jvalIsStr, pyIndex, hb]
    · rcases he : kvs.lookup "ems" with _ | ems
      · refine ⟨.keyError "ems", [Effect.store "bms_data" bms], ?_,
          .inr ⟨"ems", rfl⟩, rfl⟩
        simp [loopStep, dispatch, haction, hdata, jvalIsStr, pyIndex, hb, he]
      · exfalso
        simp [hasBmsAndEms, hb, he] at hbad
  | null =>
    refine ⟨.typeError, [], ?_, .inl rfl, rfl⟩
    simp [loopStep, dispatch, haction, hdata, jvalIsStr, pyIndex]
  | boolean b =>
    refine ⟨.typeError, [], ?_, .inl rfl, rfl⟩
    simp [loopStep, dispatch, haction, hdata, jvalIsStr, pyIndex]
  | num n =>
    refine ⟨.typeError, [], ?_, .inl rfl, rfl⟩
    simp [loopStep, dispatch, haction, hdata, jvalIsStr, pyIndex]
  | str s =>
    refine ⟨.typeError, [], ?_, .inl rfl, rfl⟩
    simp [loopStep, dispatch, haction, hdata, jvalIsStr, pyIndex]

/-- Witness for C10: a registered `local_datalogger` sends a streaming
message whose `data` is the number 3. -/
theorem streaming_bad_payload_crashes_witness :
    hasBmsAndEms (.num 3) = false ∧
    (∃ e effs,
      loopStep ⟨[("local_datalogger", 0)]⟩ (fun _ _ => true) "local_datalogger"
        (.msg (.obj [("action", .str "streaming"), ("data", .num 3)])) =
        (⟨[("local_datalogger", 0)]⟩, effs, .crashed e) ∧
      (e = .typeError ∨ ∃ k, e = PyErr.keyError k) ∧
      effs.all (fun eff => !eff.isSend) = true) :=
  ⟨rfl,
   streaming_bad_payload_crashes_without_reply_or_unregister
     ⟨[("local_datalogger", 0)]⟩ (fun _ _ => true) _ _ rfl rfl rfl⟩
